import Mathlib

/-!
Formal model of the postroad-energy/hvac-settings weather pipeline.

The repository contains two revisions of the station-selection and
normalization code:
 * `src/hvac_settings/weather.py` (`WeatherForecast.get_current_weather`,
   `WeatherForecast._validate_and_format_weather_data`,
   `WeatherForecast.get_forecast`, `WeatherForecast._get_grid_coordinates`);
 * `src/weather_service/weather_api.py` (`lambda_handler`,
   `validate_and_format_weather_data`).
Both are embedded below, together with the comfort-limit code of
`src/hvac_settings/safety.py` (`SafetyLimits`).

Python floats are modelled as rationals (ℚ).  The `%.2f` formatting and
`round(x, n)` calls of the source are modelled by rounding the rational to
the nearest multiple of 10^-n (Mathlib `round`, half-up); no statement
proved below depends on the behaviour at half-way ties, where Python's
float formatting rounds half to even on the binary value.
-/

/-- Constant `FAHRENHEIT = 9/5` from weather.py / weather_api.py. -/
def FAHRENHEIT : ℚ := 9 / 5

/-- Constant `THIRTY_TWO = 32` from weather.py / weather_api.py. -/
def THIRTY_TWO : ℚ := 32

/-- Constant `MILES_PER_HOUR = 1.609` from weather.py / weather_api.py. -/
def MILES_PER_HOUR : ℚ := 1.609

/-- Constant `RADIUS_LIMIT = 15.00` from weather.py / weather_api.py. -/
def RADIUS_LIMIT : ℚ := 15

/-- Model of the `"%.2f"` formatting used throughout both revisions:
round to two decimal places. -/
def round2 (q : ℚ) : ℚ := (round (q * 100) : ℤ) / 100

/-- Model of Python `round(x, 1)` used in safety.py: round to one decimal
place. -/
def round1 (q : ℚ) : ℚ := (round (q * 10) : ℤ) / 10

/-- Temperature conversion performed by both normalizer revisions:
`(temperature * FAHRENHEIT) + THIRTY_TWO`, then `"%.2f"` formatting. -/
def celsius_to_fahrenheit (c : ℚ) : ℚ := round2 (c * FAHRENHEIT + THIRTY_TWO)

/-- Wind-speed conversion performed by both normalizer revisions:
`wind_speed / MILES_PER_HOUR`, then `"%.2f"` formatting. -/
def kmh_to_mph (v : ℚ) : ℚ := round2 (v / MILES_PER_HOUR)

/-- Raw station observation (`latest_observation_data["properties"]` fields);
each of the four required fields may be null. -/
structure RawObservation where
  temperature : Option ℚ
  windDirection : Option ℚ
  windSpeed : Option ℚ
  relativeHumidity : Option ℚ
deriving DecidableEq

/-- The canonical formatted record built by
`_validate_and_format_weather_data` (weather.py lines 241-247). -/
structure WeatherRecord where
  resource_id : ℤ
  temperature : ℚ
  humidity : ℚ
  wind_speed : ℚ
  wind_direction : ℚ
deriving DecidableEq

/-- Result of `_validate_and_format_weather_data`.  The Python function
returns the record on success and `None` otherwise; on a null field it
first logs an error naming the field (`f"{name} is null for {zip_code}"`).
`fetchFail` models a `None` from `_get_requests`, `incomplete name` models
the logged null-field error followed by `return None`. -/
inductive ObsResult where
  | fetchFail
  | incomplete (field : String)
  | ok (r : WeatherRecord)
deriving DecidableEq

/-- First null field among the four required fields, in the order of the
`required_fields` dict of weather.py lines 223-228 (equally the order of
the sequential checks in weather_api.py lines 71-90): temperature, wind
direction, wind speed, relative humidity. -/
def firstNullField (o : RawObservation) : Option String :=
  if o.temperature.isNone then some "Temperature"
  else if o.windDirection.isNone then some "Wind Direction"
  else if o.windSpeed.isNone then some "Wind Speed"
  else if o.relativeHumidity.isNone then some "Relative Humidity"
  else none

/-- Embedding of `WeatherForecast._validate_and_format_weather_data`
(weather.py lines 214-248).  `fetched` is the result of the
`_get_requests` call on the station's latest-observation URL (`none` for a
failed fetch); `currTime` models `int(time.time() * 1000)`.  The `getD 0`
projections are only reached when `firstNullField` is `none`, i.e. when
every field is non-null, exactly as in the source. -/
def validate_and_format_weather_data (fetched : Option RawObservation)
    (currTime : ℤ) : ObsResult :=
  match fetched with
  | none => ObsResult.fetchFail
  | some o =>
    match firstNullField o with
    | some name => ObsResult.incomplete name
    | none =>
      ObsResult.ok
        { resource_id := currTime
          temperature := celsius_to_fahrenheit (o.temperature.getD 0)
          humidity := round2 (o.relativeHumidity.getD 0)
          wind_speed := kmh_to_mph (o.windSpeed.getD 0)
          wind_direction := o.windDirection.getD 0 }

/-- A station candidate as it appears in
`observation_stations["features"]`: a station identifier plus GeoJSON
`geometry.coordinates = [longitude, latitude]`. -/
structure StationCandidate where
  id : String
  lon : ℚ
  lat : ℚ
deriving DecidableEq

/-- Environment of a station scan: the haversine distance capability
(`haversine.haversine` over two (latitude, longitude) pairs, in
kilometers), the target coordinates (`self.latitude`, `self.longitude`),
the observation-fetch capability (`none` models a failed
`_get_requests`), and the capture time.  The actual great-circle formula
is transcendental, so the scan is stated for an arbitrary distance
capability `hv`; every theorem below holds for the real haversine
function as one instance. -/
structure ScanEnv where
  hv : ℚ × ℚ → ℚ × ℚ → ℚ
  selfLat : ℚ
  selfLon : ℚ
  fetchObs : String → Option RawObservation
  currTime : ℤ

/-- Distance computed for a candidate in weather.py lines 196-203 (and
weather_api.py lines 139-144): haversine between
`(coords[1], abs(coords[0]))` — i.e. (latitude, |longitude|) of the
station — and `(self.latitude, abs(self.longitude))`. -/
def stationDistance (env : ScanEnv) (c : StationCandidate) : ℚ :=
  env.hv (c.lat, |c.lon|) (env.selfLat, |env.selfLon|)

/-- The record a fetch-and-validate of a station yields, as seen by the
scan loops: `some r` when `validate_and_format_weather_data` succeeds,
`none` when the fetch failed or a required field was null (the source
returns Python `None` in both cases). -/
def fetchRecord (env : ScanEnv) (stationId : String) : Option WeatherRecord :=
  match validate_and_format_weather_data (env.fetchObs stationId) env.currTime with
  | ObsResult.ok r => some r
  | _ => none

/-- Embedding of the scan loop of `WeatherForecast.get_current_weather`
(weather.py lines 191-207).  The first component is
`current_weather_data` at loop exit; the second component is the list of
station identifiers fetched, in fetch order (one
`_validate_and_format_weather_data` call per visited candidate).  A
candidate whose fetch fails or has a null field leaves
`current_weather_data = None` and the loop continues; a valid candidate
within `RADIUS_LIMIT` breaks the loop with its record; a valid candidate
beyond `RADIUS_LIMIT` resets `current_weather_data = None` and the loop
continues. -/
def get_current_weather_scan (env : ScanEnv) :
    List StationCandidate → Option WeatherRecord × List String
  | [] => (none, [])
  | c :: rest =>
    match fetchRecord env c.id with
    | none =>
      let r := get_current_weather_scan env rest
      (r.1, c.id :: r.2)
    | some r0 =>
      if stationDistance env c ≤ RADIUS_LIMIT then (some r0, [c.id])
      else
        let r := get_current_weather_scan env rest
        (r.1, c.id :: r.2)

/-- Embedding of `WeatherForecast.get_current_weather` after the station
list has been obtained (weather.py lines 188-212): run the scan; if it
ends with `current_weather_data` still `None`, raise
`ValueError("Could not get valid weather data")`. -/
def get_current_weather (env : ScanEnv) (stations : List StationCandidate) :
    Except String WeatherRecord :=
  match (get_current_weather_scan env stations).1 with
  | some r => Except.ok r
  | none => Except.error "Could not get valid weather data"

/-- A candidate qualifies when its fetch-and-validate succeeds and its
station distance is within `RADIUS_LIMIT`. -/
def qualifies (env : ScanEnv) (c : StationCandidate) : Bool :=
  (fetchRecord env c.id).isSome && decide (stationDistance env c ≤ RADIUS_LIMIT)

/-- Embedding of the `while` loop of `lambda_handler`
(weather_api.py lines 136-149), which processes the candidates after the
first one: for each candidate, the distance is computed first and the
loop breaks (without fetching) if it exceeds `radius_limit`; otherwise
the candidate is fetched and the loop exits on success.  First component:
`current_weather_data` at loop exit; second: identifiers fetched. -/
def lambda_scan_while (env : ScanEnv) :
    List StationCandidate → Option WeatherRecord × List String
  | [] => (none, [])
  | c :: rest =>
    if RADIUS_LIMIT < stationDistance env c then (none, [])
    else
      match fetchRecord env c.id with
      | some r0 => (some r0, [c.id])
      | none =>
        let r := lambda_scan_while env rest
        (r.1, c.id :: r.2)

/-- Result of the `lambda_handler` station scan:  `indexError` models the
`IndexError` that `list_of_station_id[0]` raises on an empty features
list; `errorNoValid` models the 400 response
`"Could not retrieve valid weather data for zip code ..."`. -/
inductive LambdaResult where
  | indexError
  | errorNoValid
  | ok (r : WeatherRecord)
deriving DecidableEq

/-- Embedding of the station scan of `lambda_handler`
(weather_api.py lines 129-154): the first candidate is fetched with no
distance check and its record, if valid, is accepted unconditionally;
the remaining candidates are processed by the `while` loop
(`lambda_scan_while`).  Second component: identifiers fetched, in
order. -/
def lambda_handler_scan (env : ScanEnv) :
    List StationCandidate → LambdaResult × List String
  | [] => (LambdaResult.indexError, [])
  | c :: rest =>
    match fetchRecord env c.id with
    | some r0 => (LambdaResult.ok r0, [c.id])
    | none =>
      let r := lambda_scan_while env rest
      (match r.1 with
       | some r0 => LambdaResult.ok r0
       | none => LambdaResult.errorNoValid, c.id :: r.2)

/-- The nine-term Rothfusz regression polynomial of
`SafetyLimits._calculate_heat_index` (safety.py lines 37-52). -/
def heatIndexPoly (temperature humidity : ℚ) : ℚ :=
  (-42.379) + 2.04901523 * temperature + 10.14333127 * humidity
    + (-0.22475541) * temperature * humidity
    + (-6.83783e-3) * temperature ^ 2
    + (-5.481717e-2) * humidity ^ 2
    + 1.22874e-3 * temperature ^ 2 * humidity
    + 8.5282e-4 * temperature * humidity ^ 2
    + (-1.99e-6) * temperature ^ 2 * humidity ^ 2

/-- Embedding of `SafetyLimits._calculate_heat_index`
(safety.py lines 26-58): compute the polynomial, overwrite it with the
plain temperature when `temperature < 80 or humidity < 40`, and return
`round(hi, 1)` — note that the rounding applies on both paths. -/
def calculate_heat_index (temperature humidity : ℚ) : ℚ :=
  let hi := heatIndexPoly temperature humidity
  let hi := if temperature < 80 ∨ humidity < 40 then temperature else hi
  round1 hi

/-- Embedding of `SafetyLimits._calculate_wind_chill`
(safety.py lines 60-77).  The source computes
`wind_speed ** 0.16`, a transcendental real power; it is supplied here as
the extra argument `vpow` (the value of that power), so that the
definition stays executable.  Every theorem below quantifies over `vpow`
and therefore holds at the real power as one instance.  When
`temperature > 50 or wind_speed < 3` the temperature is returned
unrounded (early return before the formula). -/
def calculate_wind_chill (temperature wind_speed vpow : ℚ) : ℚ :=
  if 50 < temperature ∨ wind_speed < 3 then temperature
  else round1 (35.74 + 0.6215 * temperature - 35.75 * vpow
    + 0.4275 * temperature * vpow)

/-- The `adjusted_limits` dictionary of
`SafetyLimits.get_adjusted_temperature_limits` (safety.py lines 79-116),
as a function of the current weather record's temperature, humidity and
wind speed (plus the wind-speed power value `vpow`): base band is
[68, 78]; `min = max(68, wind_chill)`, `max = min(78, heat_index)`. -/
structure AdjustedLimits where
  min_temperature : ℚ
  max_temperature : ℚ
deriving DecidableEq

/-- Embedding of the limit computation of
`SafetyLimits.get_adjusted_temperature_limits` (safety.py lines 88-115). -/
def get_adjusted_temperature_limits (temperature humidity wind_speed vpow : ℚ) :
    AdjustedLimits :=
  { min_temperature := max 68 (calculate_wind_chill temperature wind_speed vpow)
    max_temperature := min 78 (calculate_heat_index temperature humidity) }

/-- Embedding of `SafetyLimits.is_safe_temperature`
(safety.py lines 118-129): recompute the adjusted limits from the current
weather and test `min <= temperature <= max`. -/
def is_safe_temperature (t temperature humidity wind_speed vpow : ℚ) : Bool :=
  decide ((get_adjusted_temperature_limits temperature humidity wind_speed vpow).min_temperature ≤ t
    ∧ t ≤ (get_adjusted_temperature_limits temperature humidity wind_speed vpow).max_temperature)

/-- One period of the hourly forecast payload
(`forecast_data["properties"]["periods"]`), with the parsed `startTime`
modelled as seconds since epoch. -/
structure ForecastPeriod where
  startTime : ℤ
  temperature : ℚ
  relativeHumidity : ℚ
  isDaytime : Bool
deriving DecidableEq

/-- One entry of the `hourly_forecasts` list built by
`WeatherForecast.get_forecast` (weather.py lines 145-151). -/
structure HourlyForecastEntry where
  hour : ℤ
  time : ℤ
  temperature : ℚ
  humidity : ℚ
  is_daytime : Bool
deriving DecidableEq

/-- The `hours_ahead` computation of weather.py line 142:
`int((period_time - current_time).total_seconds() / 3600)`.  Python
`int()` truncates toward zero, which on integer second differences is
truncating integer division (`Int.tdiv`). -/
def hours_ahead (now start : ℤ) : ℤ := Int.tdiv (start - now) 3600

/-- The entry appended for a period that passes the window test
(weather.py lines 145-151): `hour = hours_ahead + 1` (1-based). -/
def toHourlyEntry (now : ℤ) (p : ForecastPeriod) : HourlyForecastEntry :=
  { hour := hours_ahead now p.startTime + 1
    time := p.startTime
    temperature := p.temperature
    humidity := p.relativeHumidity
    is_daytime := p.isDaytime }

/-- The two `ValueError` messages `WeatherForecast.get_forecast` can
raise after a successful fetch: `invalidHoursRange` models
`"Hours must be between 1 and 156"` (line 126), `couldNotFindForecasts`
models `f"Could not find forecasts for the next {hours} hours"`
(line 154). -/
inductive ForecastError where
  | invalidHoursRange
  | couldNotFindForecasts (hours : ℤ)
deriving DecidableEq

/-- Embedding of `WeatherForecast.get_forecast` (weather.py
lines 112-165) after the grid lookup and forecast fetch succeeded
(`periods` is the fetched period list, `now` is `current_time`): the
hours argument is range-checked first (before any fetch), then the
periods with `0 <= hours_ahead < hours` are kept, each tagged with the
1-based `hour`. -/
def get_forecast (hours : ℤ) (now : ℤ) (periods : List ForecastPeriod) :
    Except ForecastError (List HourlyForecastEntry) :=
  if hours < 1 ∨ 156 < hours then Except.error ForecastError.invalidHoursRange
  else
    let hourly_forecasts := periods.filterMap (fun p =>
      if 0 ≤ hours_ahead now p.startTime ∧ hours_ahead now p.startTime < hours
      then some (toHourlyEntry now p) else none)
    if hourly_forecasts.isEmpty then
      Except.error (ForecastError.couldNotFindForecasts hours)
    else Except.ok hourly_forecasts

/-- Grid metadata extracted from the NWS points payload
(`metadata["properties"]`). -/
structure GridPoint where
  gridId : String
  gridX : ℤ
  gridY : ℤ
deriving DecidableEq

/-- The grid fields of a `WeatherForecast` instance, `None` until
resolved (weather.py lines 54-56). -/
structure GridState where
  grid_id : Option String
  grid_x : Option ℤ
  grid_y : Option ℤ
deriving DecidableEq

/-- Embedding of `WeatherForecast._get_grid_coordinates`
(weather.py lines 96-110).  `metadata` is the result the points fetch
would return if performed (`none` models a failed `_get_requests`).  The
result carries the new grid state together with the number of metadata
fetches actually performed: if `self.grid_id is not None` the method
returns at once, fetching nothing and changing nothing; otherwise it
fetches once and either raises
`ValueError("Could not get weather metadata")` or stores the grid
fields. -/
def get_grid_coordinates (metadata : Option GridPoint) (s : GridState) :
    Except String (GridState × ℕ) :=
  if s.grid_id.isSome then Except.ok (s, 0)
  else
    match metadata with
    | none => Except.error "Could not get weather metadata"
    | some p =>
      Except.ok ({ grid_id := some p.gridId, grid_x := some p.gridX,
                   grid_y := some p.gridY }, 1)

/-- Helper: `takeWhile` keeps the whole list when every element satisfies
the predicate. -/
theorem takeWhile_eq_of_all {α : Type} {p : α → Bool} :
    ∀ l : List α, (∀ c ∈ l, p c = true) → l.takeWhile p = l := by
  intro l h
  induction l with
  | nil => rfl
  | cons a t ih =>
    rw [List.takeWhile_cons, h a (by simp)]
    simp only [if_true]
    rw [ih (fun c hc => h c (by simp [hc]))]

/-- Helper: the weather.py scan returns the record of the first
qualifying candidate (in list order), and its fetch trace is the
non-qualifying prefix followed by that candidate. -/
theorem scan_characterization (env : ScanEnv) (l : List StationCandidate) :
    (get_current_weather_scan env l).1
        = (l.find? (qualifies env)).bind (fun c => fetchRecord env c.id)
    ∧ (get_current_weather_scan env l).2
        = (l.takeWhile (fun c => ! qualifies env c)).map StationCandidate.id
          ++ ((l.find? (qualifies env)).map StationCandidate.id).toList := by
  induction l with
  | nil => simp [get_current_weather_scan]
  | cons c rest ih =>
    obtain ⟨ih1, ih2⟩ := ih
    cases hfr : fetchRecord env c.id with
    | none =>
      have hq : qualifies env c = false := by simp [qualifies, hfr]
      constructor
      · simp [get_current_weather_scan, hfr, List.find?_cons, hq, ih1]
      · simp [get_current_weather_scan, hfr, List.find?_cons, hq, ih2,
          List.takeWhile_cons]
    | some r0 =>
      by_cases hd : stationDistance env c ≤ RADIUS_LIMIT
      · have hq : qualifies env c = true := by simp [qualifies, hfr, hd]
        constructor
        · simp [get_current_weather_scan, hfr, hd, List.find?_cons, hq]
        · simp [get_current_weather_scan, hfr, hd, List.find?_cons, hq,
            List.takeWhile_cons]
      · have hq : qualifies env c = false := by
          simp [qualifies, hfr, hd]
        constructor
        · simp [get_current_weather_scan, hfr, hd, List.find?_cons, hq, ih1]
        · simp [get_current_weather_scan, hfr, hd, List.find?_cons, hq, ih2,
            List.takeWhile_cons]


/-- Concrete distance capability used in the concrete examples below
(one admissible instance of the haversine parameter). -/
def exHv : ℚ × ℚ → ℚ × ℚ → ℚ := fun p q => |p.1 - q.1| + |p.2 - q.2|

/-- A fully populated raw observation. -/
def exObsFull : RawObservation :=
  { temperature := some 20, windDirection := some 180,
    windSpeed := some 10, relativeHumidity := some 50 }

/-- A raw observation with a null temperature. -/
def exObsNullTemp : RawObservation :=
  { temperature := none, windDirection := some 180,
    windSpeed := some 10, relativeHumidity := some 50 }

/-- Concrete fetch capability: station s1 reports a null temperature,
stations s2 and s3 report full observations, everything else fails. -/
def exFetch : String → Option RawObservation := fun stationId =>
  if stationId = "s1" then some exObsNullTemp
  else if stationId = "s2" then some exObsFull
  else if stationId = "s3" then some exObsFull
  else none

/-- Concrete scan environment: target at (0, 0), capture time 5. -/
def exEnv : ScanEnv :=
  { hv := exHv, selfLat := 0, selfLon := 0, fetchObs := exFetch, currTime := 5 }

/-- Candidate s1: in range (distance 2) but its observation is missing a
required field. -/
def exSt1 : StationCandidate := { id := "s1", lon := 1, lat := 1 }

/-- Candidate s2: valid observation but out of range (distance 100). -/
def exSt2 : StationCandidate := { id := "s2", lon := 0, lat := 100 }

/-- Candidate s3: valid observation and in range (distance 2). -/
def exSt3 : StationCandidate := { id := "s3", lon := 0, lat := 2 }

/-- The weather record the full observation normalizes to at capture
time 5: 20 °C becomes 68 °F, 10 km/h becomes 6.22 mph. -/
def exRecord : WeatherRecord :=
  { resource_id := 5, temperature := 68, humidity := 50,
    wind_speed := 6.22, wind_direction := 180 }

/-- Evaluation: 20 °C converts to exactly 68 °F. -/
theorem celsius20 : celsius_to_fahrenheit 20 = 68 := by
  norm_num [celsius_to_fahrenheit, round2, round_eq, FAHRENHEIT, THIRTY_TWO]

/-- Evaluation: 10 km/h converts to 6.22 mph. -/
theorem kmh10 : kmh_to_mph 10 = 6.22 := by
  norm_num [kmh_to_mph, round2, round_eq, MILES_PER_HOUR]

/-- Evaluation: a humidity of 50 is unchanged by two-decimal rounding. -/
theorem round2_50 : round2 50 = 50 := by
  norm_num [round2, round_eq]

/-- Evaluation: station s1's observation is rejected (null temperature). -/
theorem fetchRecord_s1 : fetchRecord exEnv "s1" = none := by
  simp [fetchRecord, exEnv, exFetch, validate_and_format_weather_data,
    firstNullField, exObsNullTemp]

/-- Evaluation: station s2's observation normalizes to `exRecord`. -/
theorem fetchRecord_s2 : fetchRecord exEnv "s2" = some exRecord := by
  simp [fetchRecord, exEnv, exFetch, validate_and_format_weather_data,
    firstNullField, exObsFull, exRecord, celsius20, kmh10, round2_50]

/-- Evaluation: station s3's observation normalizes to `exRecord`. -/
theorem fetchRecord_s3 : fetchRecord exEnv "s3" = some exRecord := by
  simp [fetchRecord, exEnv, exFetch, validate_and_format_weather_data,
    firstNullField, exObsFull, exRecord, celsius20, kmh10, round2_50]

/-- Evaluation: station s2 is beyond the radius limit. -/
theorem dist_s2_far : RADIUS_LIMIT < stationDistance exEnv exSt2 := by
  norm_num [stationDistance, exEnv, exHv, exSt2, RADIUS_LIMIT]

/-- Evaluation: station s3 is within the radius limit. -/
theorem dist_s3_near : stationDistance exEnv exSt3 ≤ RADIUS_LIMIT := by
  norm_num [stationDistance, exEnv, exHv, exSt3, RADIUS_LIMIT]

/-- Evaluation: s1 does not qualify (invalid observation). -/
theorem qualifies_s1 : qualifies exEnv exSt1 = false := by
  rw [qualifies, show exSt1.id = "s1" from rfl, fetchRecord_s1]
  simp

/-- Evaluation: s2 does not qualify (valid but out of range). -/
theorem qualifies_s2 : qualifies exEnv exSt2 = false := by
  rw [qualifies, show exSt2.id = "s2" from rfl, fetchRecord_s2]
  simp [not_le.mpr dist_s2_far]

/-- Evaluation: s3 qualifies (valid and in range). -/
theorem qualifies_s3 : qualifies exEnv exSt3 = true := by
  rw [qualifies, show exSt3.id = "s3" from rfl, fetchRecord_s3]
  simp [dist_s3_near]

/-- Evaluation: the weather.py scan on the three-candidate scenario
returns s3's record. -/
theorem ex_scan3_fst :
    (get_current_weather_scan exEnv [exSt1, exSt2, exSt3]).1 = some exRecord := by
  rw [(scan_characterization exEnv [exSt1, exSt2, exSt3]).1]
  simp [List.find?_cons, qualifies_s1, qualifies_s2, qualifies_s3,
    show exSt3.id = "s3" from rfl, fetchRecord_s3]

/-- Evaluation: `get_current_weather` on the three-candidate scenario
succeeds with s3's record. -/
theorem ex_cw3 :
    get_current_weather exEnv [exSt1, exSt2, exSt3] = Except.ok exRecord := by
  rw [get_current_weather, ex_scan3_fst]

/-- Evaluation: neither s1 nor s2 qualifies. -/
theorem ex_noqual12 : ∀ c ∈ [exSt1, exSt2], qualifies exEnv c = false := by
  intro c hc
  simp only [List.mem_cons, List.mem_singleton, List.not_mem_nil, or_false] at hc
  rcases hc with h | h
  · rw [h]; exact qualifies_s1
  · rw [h]; exact qualifies_s2

/-- Evaluation: the lambda_handler scan on the three-candidate scenario
fails after fetching only s1. -/
theorem lambda_ex3 :
    lambda_handler_scan exEnv [exSt1, exSt2, exSt3]
      = (LambdaResult.errorNoValid, ["s1"]) := by
  simp [lambda_handler_scan, lambda_scan_while, show exSt1.id = "s1" from rfl,
    fetchRecord_s1, dist_s2_far]

/-- Evaluation: the lambda_handler scan accepts a lone out-of-range
candidate. -/
theorem lambda_ex1 :
    lambda_handler_scan exEnv [exSt2] = (LambdaResult.ok exRecord, ["s2"]) := by
  simp [lambda_handler_scan, show exSt2.id = "s2" from rfl, fetchRecord_s2]

/-- Evaluation: the lambda_handler scan on [s1, s2] fails after fetching
only s1. -/
theorem lambda_ex2 :
    lambda_handler_scan exEnv [exSt1, exSt2]
      = (LambdaResult.errorNoValid, ["s1"]) := by
  simp [lambda_handler_scan, lambda_scan_while, show exSt1.id = "s1" from rfl,
    fetchRecord_s1, dist_s2_far]

/-- C1 (amended): `WeatherForecast.get_current_weather` scans the
candidates strictly in the given order: its result is the fetched record
of the first candidate that is both valid and within `RADIUS_LIMIT`
(`List.find?`), and its fetch trace is exactly the prefix of
non-qualifying candidates (fetch-failed, null-field, or valid but out of
range — all of which merely continue the scan) followed by the first
qualifying candidate.  The cited `lambda_handler` revision does not
behave this way: see `C1_counterexample`. -/
theorem C1_scan_in_order (env : ScanEnv) (l : List StationCandidate) :
    (get_current_weather_scan env l).1
        = (l.find? (qualifies env)).bind (fun c => fetchRecord env c.id)
    ∧ (get_current_weather_scan env l).2
        = (l.takeWhile (fun c => ! qualifies env c)).map StationCandidate.id
          ++ ((l.find? (qualifies env)).map StationCandidate.id).toList :=
  scan_characterization env l

/-- C1 (counterexample): on the spec's own three-candidate scenario — s1
missing a required field, s2 valid but out of range, s3 valid and in
range — the `lambda_handler` scan (weather_api.py lines 129-154) fetches
only s1 and fails, instead of fetching all three in order and returning
s3's record (which is what the claim requires, and what
`get_current_weather_scan` produces). -/
theorem C1_counterexample :
    lambda_handler_scan exEnv [exSt1, exSt2, exSt3]
        = (LambdaResult.errorNoValid, ["s1"])
    ∧ qualifies exEnv exSt3 = true
    ∧ (get_current_weather_scan exEnv [exSt1, exSt2, exSt3]).1 = some exRecord :=
  ⟨lambda_ex3, qualifies_s3, ex_scan3_fst⟩

/-- C2 (amended): any record returned by
`WeatherForecast.get_current_weather` comes from a candidate of the list
whose station distance — the haversine capability applied to the
(latitude, |longitude|) pairs — is at most `RADIUS_LIMIT = 15`.  The
cited `lambda_handler` revision instead returns the first candidate's
record without any distance check: see `C2_counterexample`. -/
theorem C2_radius_sound (env : ScanEnv) (l : List StationCandidate)
    (r : WeatherRecord) (h : get_current_weather env l = Except.ok r) :
    RADIUS_LIMIT = 15
    ∧ ∃ c, c ∈ l ∧ fetchRecord env c.id = some r
        ∧ stationDistance env c ≤ RADIUS_LIMIT := by
  refine ⟨rfl, ?_⟩
  have h1 := (scan_characterization env l).1
  unfold get_current_weather at h
  cases hs : (get_current_weather_scan env l).1 with
  | none => rw [hs] at h; simp at h
  | some r2 =>
    rw [hs] at h
    simp only [Except.ok.injEq] at h
    subst h
    rw [hs] at h1
    obtain ⟨c, hcfind, hcfetch⟩ := Option.bind_eq_some.mp h1.symm
    refine ⟨c, List.mem_of_find?_eq_some hcfind, hcfetch, ?_⟩
    have hq := List.find?_some hcfind
    simp only [qualifies, Bool.and_eq_true, decide_eq_true_eq] at hq
    exact hq.2

/-- C2 (witness): the three-candidate scenario returns a record, and the
theorem exhibits the valid in-range candidate it came from. -/
theorem C2_witness :
    RADIUS_LIMIT = 15
    ∧ ∃ c, c ∈ [exSt1, exSt2, exSt3] ∧ fetchRecord exEnv c.id = some exRecord
        ∧ stationDistance exEnv c ≤ RADIUS_LIMIT :=
  C2_radius_sound exEnv [exSt1, exSt2, exSt3] exRecord ex_cw3

/-- C2 (counterexample): `lambda_handler` accepts the first candidate
without a distance check — a lone valid candidate at distance 100 > 15
has its record returned, contradicting the claim that no record from a
station beyond the radius limit (the first candidate included) is ever
returned. -/
theorem C2_counterexample :
    lambda_handler_scan exEnv [exSt2] = (LambdaResult.ok exRecord, ["s2"])
    ∧ RADIUS_LIMIT < stationDistance exEnv exSt2 :=
  ⟨lambda_ex1, dist_s2_far⟩

/-- C3 (amended): on a candidate list with no valid-and-in-range
candidate, `WeatherForecast.get_current_weather` raises
`ValueError("Could not get valid weather data")` and its fetch trace is
the whole candidate list in order — every candidate fetched exactly
once.  The cited `lambda_handler` revision can fail after visiting only
a proper prefix: see `C3_counterexample`. -/
theorem C3_exhaustion (env : ScanEnv) (l : List StationCandidate)
    (h : ∀ c ∈ l, qualifies env c = false) :
    get_current_weather env l = Except.error "Could not get valid weather data"
    ∧ (get_current_weather_scan env l).2 = l.map StationCandidate.id := by
  have hfind : l.find? (qualifies env) = none :=
    List.find?_eq_none.mpr (by intro x hx; simp [h x hx])
  have h1 := (scan_characterization env l).1
  have h2 := (scan_characterization env l).2
  constructor
  · unfold get_current_weather
    rw [h1, hfind]
    rfl
  · rw [h2, hfind]
    rw [takeWhile_eq_of_all l (fun c hc => by simp [h c hc])]
    simp

/-- C3 (witness): with s1 invalid and s2 valid-but-out-of-range, the
scan fails and the fetch trace is both candidates in order. -/
theorem C3_witness :
    get_current_weather exEnv [exSt1, exSt2]
        = Except.error "Could not get valid weather data"
    ∧ (get_current_weather_scan exEnv [exSt1, exSt2]).2
        = [exSt1, exSt2].map StationCandidate.id :=
  C3_exhaustion exEnv [exSt1, exSt2] ex_noqual12

/-- C3 (counterexample): the list [s1, s2] has no qualifying candidate,
yet the `lambda_handler` scan fetches only s1 — it breaks at s2's
distance check without fetching s2, so it does not visit every candidate
before failing. -/
theorem C3_counterexample :
    (∀ c ∈ [exSt1, exSt2], qualifies exEnv c = false)
    ∧ lambda_handler_scan exEnv [exSt1, exSt2]
        = (LambdaResult.errorNoValid, ["s1"]) :=
  ⟨ex_noqual12, lambda_ex2⟩

/-- C9: on an empty candidate list, `WeatherForecast.get_current_weather`
raises the same `ValueError("Could not get valid weather data")` as list
exhaustion, with an empty fetch trace (zero observation fetches) — not a
distinct out-of-bounds error. -/
theorem C9_empty_station_list (env : ScanEnv) :
    get_current_weather env [] = Except.error "Could not get valid weather data"
    ∧ (get_current_weather_scan env []).2 = [] :=
  ⟨rfl, rfl⟩

/-- C4: the normalizer checks the four required fields in the fixed
order temperature, wind direction, wind speed, relative humidity, fails
naming the first null field, and produces a record exactly when all four
fields are non-null. -/
theorem C4_first_null_field (o : RawObservation) (t : ℤ) :
    (o.temperature = none →
      validate_and_format_weather_data (some o) t
        = ObsResult.incomplete "Temperature")
    ∧ (o.temperature ≠ none → o.windDirection = none →
      validate_and_format_weather_data (some o) t
        = ObsResult.incomplete "Wind Direction")
    ∧ (o.temperature ≠ none → o.windDirection ≠ none → o.windSpeed = none →
      validate_and_format_weather_data (some o) t
        = ObsResult.incomplete "Wind Speed")
    ∧ (o.temperature ≠ none → o.windDirection ≠ none → o.windSpeed ≠ none →
      o.relativeHumidity = none →
      validate_and_format_weather_data (some o) t
        = ObsResult.incomplete "Relative Humidity")
    ∧ ((∃ r, validate_and_format_weather_data (some o) t = ObsResult.ok r) ↔
      (o.temperature ≠ none ∧ o.windDirection ≠ none ∧ o.windSpeed ≠ none
        ∧ o.relativeHumidity ≠ none)) := by
  obtain ⟨temp, dir, spd, hum⟩ := o
  refine ⟨?_, ?_, ?_, ?_, ?_⟩ <;>
    cases temp <;> cases dir <;> cases spd <;> cases hum <;>
      simp [validate_and_format_weather_data, firstNullField]

/-- C4 (witness): an observation missing only the wind speed is rejected
naming "Wind Speed", and a fully populated observation yields a record. -/
theorem C4_witness :
    validate_and_format_weather_data
        (some { temperature := some 20, windDirection := some 180,
                windSpeed := none, relativeHumidity := some 50 }) 5
      = ObsResult.incomplete "Wind Speed"
    ∧ ∃ r, validate_and_format_weather_data (some exObsFull) 5
        = ObsResult.ok r :=
  ⟨(C4_first_null_field
      { temperature := some 20, windDirection := some 180,
        windSpeed := none, relativeHumidity := some 50 } 5).2.2.1
      (by simp) (by simp) rfl,
   (C4_first_null_field exObsFull 5).2.2.2.2.mpr (by simp [exObsFull])⟩

/-- C5: the safety check is true exactly when the candidate temperature
lies between `max(68, wind_chill)` and `min(78, heat_index)`; when the
adjusted limits are inverted (max < min), the check is false for every
temperature — a valid boolean result, not an error. -/
theorem C5_is_safe_iff (t temperature humidity wind_speed vpow : ℚ) :
    (is_safe_temperature t temperature humidity wind_speed vpow = true ↔
      max 68 (calculate_wind_chill temperature wind_speed vpow) ≤ t
        ∧ t ≤ min 78 (calculate_heat_index temperature humidity))
    ∧ ((get_adjusted_temperature_limits temperature humidity wind_speed vpow).max_temperature
          < (get_adjusted_temperature_limits temperature humidity wind_speed vpow).min_temperature →
        is_safe_temperature t temperature humidity wind_speed vpow = false) := by
  constructor
  · simp [is_safe_temperature, get_adjusted_temperature_limits]
  · intro hinv
    rw [is_safe_temperature, decide_eq_false_iff_not]
    rintro ⟨h1, h2⟩
    exact absurd (le_trans h1 h2) (not_le.mpr hinv)

/-- C5 (witness): at 50 °F, 50 % humidity, 5 mph wind the limits invert
(max 50 < min 68) and no temperature is safe; at 75 °F the band
degenerates to [75, 75] and 75 °F is safe. -/
theorem C5_witness :
    is_safe_temperature 60 50 50 5 1 = false
    ∧ is_safe_temperature 75 75 50 5 1 = true :=
  ⟨(C5_is_safe_iff 60 50 50 5 1).2
      (by norm_num [get_adjusted_temperature_limits, calculate_wind_chill,
        calculate_heat_index, heatIndexPoly, round1, round_eq]),
   (C5_is_safe_iff 75 75 50 5 1).1.mpr
      (by norm_num [calculate_wind_chill, calculate_heat_index,
        heatIndexPoly, round1, round_eq])⟩

/-- C6 (amended): the heat index returns `round(temp_f, 1)` — not
`temp_f` unmodified — when `temp_f < 80` or `humidity_pct < 40`, and the
Rothfusz polynomial rounded to 1 decimal place otherwise; the spec's
test fixtures hold because their temperatures are already at one decimal
place. -/
theorem C6_heat_index (temperature humidity : ℚ) :
    (temperature < 80 ∨ humidity < 40 →
      calculate_heat_index temperature humidity = round1 temperature)
    ∧ (80 ≤ temperature → 40 ≤ humidity →
      calculate_heat_index temperature humidity
        = round1 (heatIndexPoly temperature humidity))
    ∧ calculate_heat_index 75 60 = 75
    ∧ calculate_heat_index 85 30 = 85
    ∧ 80 < calculate_heat_index 80 60 := by
  refine ⟨?_, ?_, ?_, ?_, ?_⟩
  · intro h
    simp [calculate_heat_index, h]
  · intro h1 h2
    simp [calculate_heat_index, not_lt.mpr h1, not_lt.mpr h2]
  · norm_num [calculate_heat_index, round1, round_eq]
  · norm_num [calculate_heat_index, round1, round_eq]
  · norm_num [calculate_heat_index, heatIndexPoly, round1, round_eq]

/-- C6 (counterexample): in the passthrough regime the code still rounds
to one decimal place: `_calculate_heat_index(75.13, 60)` returns 75.1,
not 75.13 unmodified as the claim states. -/
theorem C6_counterexample :
    calculate_heat_index 75.13 60 = 75.1
    ∧ (75.13 : ℚ) ≠ 75.1
    ∧ (75.13 : ℚ) < 80 := by
  refine ⟨?_, by norm_num, by norm_num⟩
  norm_num [calculate_heat_index, round1, round_eq]

/-- C6 (witness): passthrough and regression regimes at concrete
inputs. -/
theorem C6_witness :
    calculate_heat_index 75 60 = round1 75
    ∧ calculate_heat_index 85 45 = round1 (heatIndexPoly 85 45) :=
  ⟨(C6_heat_index 75 60).1 (by norm_num),
   (C6_heat_index 85 45).2.1 (by norm_num) (by norm_num)⟩

/-- C7: the unit conversions are `c * 9/5 + 32` and `v / 1.609`, each
rounded to two decimal places, with `celsius_to_fahrenheit 20 = 68`
exactly and `kmh_to_mph 10 = 6.22`. -/
theorem C7_unit_conversions :
    (∀ c : ℚ, celsius_to_fahrenheit c = round2 (c * (9 / 5) + 32))
    ∧ celsius_to_fahrenheit 20 = 68
    ∧ (∀ v : ℚ, kmh_to_mph v = round2 (v / 1.609))
    ∧ kmh_to_mph 10 = 6.22 :=
  ⟨fun _ => rfl, celsius20, fun _ => rfl, kmh10⟩

/-- C8 (amended): `get_forecast` raises
`ValueError("Hours must be between 1 and 156")` exactly when `hours` is
outside 1..156 (before any fetch), and a successful result contains
exactly the periods whose truncated elapsed-hours value
`int((start - now) / 3600)` lies in `[0, hours)` — because `int()`
truncates toward zero this admits periods starting up to one hour before
`now` — each tagged with the 1-based hour `hours_ahead + 1`. -/
theorem C8_forecast_window (hours now : ℤ) (periods : List ForecastPeriod) :
    (get_forecast hours now periods
        = Except.error ForecastError.invalidHoursRange
      ↔ (hours < 1 ∨ 156 < hours))
    ∧ ∀ entries, get_forecast hours now periods = Except.ok entries →
        ∀ e, e ∈ entries ↔ ∃ p, p ∈ periods
          ∧ 0 ≤ hours_ahead now p.startTime
          ∧ hours_ahead now p.startTime < hours
          ∧ e = toHourlyEntry now p := by
  constructor
  · constructor
    · intro h
      by_contra hrange
      rw [get_forecast, if_neg hrange] at h
      by_cases he : (periods.filterMap fun p =>
          if 0 ≤ hours_ahead now p.startTime ∧ hours_ahead now p.startTime < hours
          then some (toHourlyEntry now p) else none).isEmpty
      · rw [if_pos he] at h
        exact absurd h (by simp)
      · rw [if_neg he] at h
        exact absurd h (by simp)
    · intro hrange
      rw [get_forecast, if_pos hrange]
  · intro entries h e
    by_cases hrange : hours < 1 ∨ 156 < hours
    · rw [get_forecast, if_pos hrange] at h
      exact absurd h (by simp)
    · rw [get_forecast, if_neg hrange] at h
      by_cases he : (periods.filterMap fun p =>
          if 0 ≤ hours_ahead now p.startTime ∧ hours_ahead now p.startTime < hours
          then some (toHourlyEntry now p) else none).isEmpty
      · rw [if_pos he] at h
        exact absurd h (by simp)
      · rw [if_neg he] at h
        simp only [Except.ok.injEq] at h
        subst h
        rw [List.mem_filterMap]
        constructor
        · rintro ⟨p, hp, hpe⟩
          by_cases hc : 0 ≤ hours_ahead now p.startTime
              ∧ hours_ahead now p.startTime < hours
          · rw [if_pos hc] at hpe
            simp only [Option.some.injEq] at hpe
            exact ⟨p, hp, hc.1, hc.2, hpe.symm⟩
          · rw [if_neg hc] at hpe
            exact absurd hpe (by simp)
        · rintro ⟨p, hp, h1, h2, rfl⟩
          exact ⟨p, hp, by rw [if_pos ⟨h1, h2⟩]⟩

/-- Concrete three-period forecast payload: periods starting now, in one
hour and in two hours. -/
def exPeriods : List ForecastPeriod :=
  [{ startTime := 0, temperature := 70, relativeHumidity := 50, isDaytime := true },
   { startTime := 3600, temperature := 71, relativeHumidity := 51, isDaytime := false },
   { startTime := 7200, temperature := 72, relativeHumidity := 52, isDaytime := true }]

/-- The entries `get_forecast 2 0 exPeriods` keeps: the first two
periods, tagged hour 1 and hour 2. -/
def exEntries : List HourlyForecastEntry :=
  [{ hour := 1, time := 0, temperature := 70, humidity := 50, is_daytime := true },
   { hour := 2, time := 3600, temperature := 71, humidity := 51, is_daytime := false }]

/-- Evaluation: a 2-hour forecast at now = 0 keeps exactly the first two
periods. -/
theorem exForecastEval : get_forecast 2 0 exPeriods = Except.ok exEntries := rfl

/-- C8 (witness): the error-range equivalence and the window
characterization at the concrete 2-hour payload. -/
theorem C8_witness :
    (get_forecast 2 0 exPeriods = Except.error ForecastError.invalidHoursRange
      ↔ ((2:ℤ) < 1 ∨ 156 < (2:ℤ)))
    ∧ ∀ e, e ∈ exEntries ↔ ∃ p, p ∈ exPeriods
        ∧ 0 ≤ hours_ahead 0 p.startTime ∧ hours_ahead 0 p.startTime < 2
        ∧ e = toHourlyEntry 0 p :=
  ⟨(C8_forecast_window 2 0 exPeriods).1,
   fun e => (C8_forecast_window 2 0 exPeriods).2 exEntries exForecastEval e⟩

/-- C8 (counterexample): a period starting 1800 seconds before `now` is
outside the claim's window `[now, now + hours)`, yet `get_forecast`
returns it (tagged hour 1), because `int()` truncates -0.5 toward
zero. -/
theorem C8_counterexample :
    get_forecast 2 0
        [{ startTime := -1800, temperature := 70, relativeHumidity := 50,
           isDaytime := true }]
      = Except.ok
          [{ hour := 1, time := -1800, temperature := 70, humidity := 50,
             is_daytime := true }]
    ∧ ¬((0:ℤ) ≤ -1800) :=
  ⟨rfl, by decide⟩

/-- C10: after any successful `_get_grid_coordinates` call, a subsequent
call — with any fetch capability, e.g. from a second `get_forecast` on
the same instance — performs zero metadata fetches and returns the grid
state unchanged. -/
theorem C10_grid_cached (m1 m2 : Option GridPoint) (s s1 : GridState) (n : ℕ)
    (h : get_grid_coordinates m1 s = Except.ok (s1, n)) :
    get_grid_coordinates m2 s1 = Except.ok (s1, 0) := by
  have hsome : s1.grid_id.isSome = true := by
    unfold get_grid_coordinates at h
    by_cases hg : s.grid_id.isSome = true
    · rw [if_pos hg] at h
      simp only [Except.ok.injEq, Prod.mk.injEq] at h
      rw [← h.1]
      exact hg
    · rw [if_neg hg] at h
      cases m1 with
      | none => simp at h
      | some p =>
        simp only [Except.ok.injEq, Prod.mk.injEq] at h
        rw [← h.1]
        rfl
  unfold get_grid_coordinates
  rw [if_pos hsome]

/-- C10 (witness): a fresh instance resolves the grid once (one fetch);
the second call succeeds with zero fetches and an unchanged state even
when its fetch capability would fail. -/
theorem C10_witness :
    get_grid_coordinates none
        { grid_id := some "OKX", grid_x := some 32, grid_y := some 34 }
      = Except.ok
          ({ grid_id := some "OKX", grid_x := some 32, grid_y := some 34 }, 0) :=
  C10_grid_cached (some { gridId := "OKX", gridX := 32, gridY := 34 }) none
    { grid_id := none, grid_x := none, grid_y := none }
    { grid_id := some "OKX", grid_x := some 32, grid_y := some 34 } 1 rfl
